import Mathlib

/-!
# Verification of the Ghost admin surface

Shallow embedding of:
* `ghost/recommendations/src/Recommendation.ts` — the `Recommendation`
  entity (validation, cleaning, creation, editing);
* `apps/admin-x-settings/src/components/providers/RoutingProvider.tsx` —
  hash-route parsing, route matching and modal dispatch;
* `ghost/admin/app/templates/settings/labs.hbs` — the labs settings page.

JS `Date` values are modelled as timestamps in milliseconds (`Nat`);
JS `URL` objects as a record of an opaque base together with the
`search` and `hash` components; JS exceptions as `Except`.
-/

namespace Ghost

/-- A JS `ValidationError` (from `@tryghost/errors`): only the message matters here. -/
structure ValidationError where
  message : String
deriving DecidableEq, Repr

/-- A JS `URL` object, reduced to the components the `Recommendation` code
touches: `base` stands opaquely for protocol, host and pathname; `search`
and `hash` are the query and fragment components (assigned by `cleanURL`). -/
structure JsURL where
  base : String
  search : String
  hash : String
deriving DecidableEq, Repr

/-- JS string truthiness: the empty string is falsy, all others truthy. -/
def jsTruthy (s : String) : Bool := s ≠ ""

/-- `Date.prototype.setMilliseconds(0)` on a timestamp: zero the
milliseconds-within-second component. -/
def setMs0 (t : Nat) : Nat := t - t % 1000

/-- The `RecommendationPlain` record (public data of a recommendation).
`reason`, `excerpt`, `featuredImage`, `favicon`, `updatedAt` are nullable;
`clickCount` and `subscriberCount` are optional read-only counters. -/
structure RecommendationPlain where
  id : String
  title : String
  reason : Option String
  excerpt : Option String
  featuredImage : Option JsURL
  favicon : Option JsURL
  url : JsURL
  oneClickSubscribe : Bool
  createdAt : Nat
  updatedAt : Option Nat
  clickCount : Option Nat
  subscriberCount : Option Nat
deriving DecidableEq, Repr

/-- The `AddRecommendation` input type: `RecommendationCreateData` without
`id`, `createdAt`, `updatedAt` (and without the read-only counters, which
`validate` never reads).

Modelled from the spec: the imported `UnsafeData` helper (not among the
reviewed sources) coerces the `url`, `featuredImage` and `favicon` fields
from `URL|string` to `URL`; here those fields are taken as already-parsed
`JsURL` values, on which the coercion is the identity. -/
structure AddRecommendation where
  title : String
  reason : Option String
  excerpt : Option String
  featuredImage : Option JsURL
  favicon : Option JsURL
  url : JsURL
  oneClickSubscribe : Bool
deriving DecidableEq, Repr

/-- The `RecommendationCreateData` input of `Recommendation.create`:
`id` and `createdAt` optional (defaulted inside `create`), `updatedAt`
optional-or-null (`data.updatedAt ?? null` collapses both to null). -/
structure RecommendationCreateData where
  id : Option String
  title : String
  reason : Option String
  excerpt : Option String
  featuredImage : Option JsURL
  favicon : Option JsURL
  url : JsURL
  oneClickSubscribe : Bool
  createdAt : Option Nat
  updatedAt : Option Nat
  clickCount : Option Nat
  subscriberCount : Option Nat
deriving DecidableEq, Repr

/-- The `Recommendation` entity. The private fields `#clickCount`,
`#subscriberCount` and `#deleted` are modelled as ordinary fields; they
are the ones `Object.assign` does not copy in `edit`. -/
structure Recommendation where
  id : String
  title : String
  reason : Option String
  excerpt : Option String
  featuredImage : Option JsURL
  favicon : Option JsURL
  url : JsURL
  oneClickSubscribe : Bool
  createdAt : Nat
  updatedAt : Option Nat
  clickCount : Option Nat
  subscriberCount : Option Nat
  deleted : Bool
deriving DecidableEq, Repr

namespace Recommendation

/-- `Recommendation.validate(properties)` (lines 93–117): throws a
`ValidationError` when the title is empty, the title exceeds 2000
characters, or a truthy reason/excerpt exceeds 2000 characters. -/
def validate (properties : AddRecommendation) : Except ValidationError Unit :=
  if properties.title.length = 0 then
    .error ⟨"Title must not be empty"⟩
  else if properties.title.length > 2000 then
    .error ⟨"Title must be less than 2000 characters"⟩
  else if (properties.reason.elim false fun r => jsTruthy r && r.length > 2000) then
    .error ⟨"Reason must be less than 2000 characters"⟩
  else if (properties.excerpt.elim false fun e => jsTruthy e && e.length > 2000) then
    .error ⟨"Excerpt must be less than 2000 characters"⟩
  else
    .ok ()

/-- `cleanURL(url)` (lines 129–134): blank out query and fragment. -/
def cleanURL (url : JsURL) : JsURL :=
  { url with search := "", hash := "" }

/-- `clean()` (lines 119–127): an empty (non-null) reason becomes null, the
url is cleaned, and the millisecond components of `createdAt` and (when
non-null) `updatedAt` are zeroed. -/
def clean (r : Recommendation) : Recommendation :=
  let r := if (match r.reason with | some s => s.length == 0 | none => false) then
    { r with reason := none } else r
  { r with
    url := cleanURL r.url
    createdAt := setMs0 r.createdAt
    updatedAt := r.updatedAt.map setMs0 }

/-- The private constructor (lines 77–91): copies the plain data and sets
`#deleted` to false. -/
def ofPlain (data : RecommendationPlain) : Recommendation :=
  { id := data.id
    title := data.title
    reason := data.reason
    excerpt := data.excerpt
    featuredImage := data.featuredImage
    favicon := data.favicon
    url := data.url
    oneClickSubscribe := data.oneClickSubscribe
    createdAt := data.createdAt
    updatedAt := data.updatedAt
    clickCount := data.clickCount
    subscriberCount := data.subscriberCount
    deleted := false }

end Recommendation

/-- The `AddRecommendation` view of the assembled create data, as passed
to `validate` inside `create`. -/
def RecommendationPlain.toAdd (d : RecommendationPlain) : AddRecommendation :=
  { title := d.title
    reason := d.reason
    excerpt := d.excerpt
    featuredImage := d.featuredImage
    favicon := d.favicon
    url := d.url
    oneClickSubscribe := d.oneClickSubscribe }

namespace Recommendation

/-- `Recommendation.create(data)` (lines 136–159). `now` stands for
`new Date()` and `freshId` for `ObjectId().toString()` (both are
environment inputs). The `UnsafeData` url coercions are the identity on
already-parsed `JsURL` values (see `AddRecommendation`). `validate` runs
before the entity is constructed and cleaned. -/
def create (data : RecommendationCreateData) (now : Nat) (freshId : String) :
    Except ValidationError Recommendation :=
  let d : RecommendationPlain :=
    { id := data.id.getD freshId
      title := data.title
      reason := data.reason
      excerpt := data.excerpt
      featuredImage := data.featuredImage
      favicon := data.favicon
      url := data.url
      oneClickSubscribe := data.oneClickSubscribe
      createdAt := data.createdAt.getD now
      updatedAt := data.updatedAt
      clickCount := data.clickCount
      subscriberCount := data.subscriberCount }
  match validate d.toAdd with
  | .error e => .error e
  | .ok _ => .ok (clean (ofPlain d))

/-- The `plain` getter (lines 161–176). -/
def plain (r : Recommendation) : RecommendationPlain :=
  { id := r.id
    title := r.title
    reason := r.reason
    excerpt := r.excerpt
    featuredImage := r.featuredImage
    favicon := r.favicon
    url := r.url
    oneClickSubscribe := r.oneClickSubscribe
    createdAt := r.createdAt
    updatedAt := r.updatedAt
    clickCount := r.clickCount
    subscriberCount := r.subscriberCount }

end Recommendation

/-- The `EditRecommendation` type: `Partial<AddRecommendation>` plus the
optional counters. `none` stands for a key that is absent or set to
`undefined` (the `edit` loop skips both identically); for nullable fields
the inner `Option` carries null. -/
structure EditRecommendation where
  title : Option String := none
  reason : Option (Option String) := none
  excerpt : Option (Option String) := none
  featuredImage : Option (Option JsURL) := none
  favicon : Option (Option JsURL) := none
  url : Option JsURL := none
  oneClickSubscribe : Option Bool := none
  clickCount : Option Nat := none
  subscriberCount : Option Nat := none
deriving DecidableEq, Repr

/-- The `RecommendationCreateData` built from the merged plain object
inside `edit` (every field of the plain object is present). -/
def RecommendationPlain.toCreateData (p : RecommendationPlain) :
    RecommendationCreateData :=
  { id := some p.id
    title := p.title
    reason := p.reason
    excerpt := p.excerpt
    featuredImage := p.featuredImage
    favicon := p.favicon
    url := p.url
    oneClickSubscribe := p.oneClickSubscribe
    createdAt := some p.createdAt
    updatedAt := p.updatedAt
    clickCount := p.clickCount
    subscriberCount := p.subscriberCount }

namespace Recommendation

/-- The merge loop of `edit` (lines 183–189): start from `this.plain` and
overwrite each field whose key is present with a defined value. -/
def mergeEdit (p : RecommendationPlain) (properties : EditRecommendation) :
    RecommendationPlain :=
  { p with
    title := properties.title.getD p.title
    reason := properties.reason.getD p.reason
    excerpt := properties.excerpt.getD p.excerpt
    featuredImage := properties.featuredImage.getD p.featuredImage
    favicon := properties.favicon.getD p.favicon
    url := properties.url.getD p.url
    oneClickSubscribe := properties.oneClickSubscribe.getD p.oneClickSubscribe
    clickCount := (properties.clickCount.map some).getD p.clickCount
    subscriberCount := (properties.subscriberCount.map some).getD p.subscriberCount }

/-- `edit(properties)` (lines 181–195). `now` stands for the `new Date()`
assigned to `updatedAt`. On success `Object.assign(this, created)` copies
the public own fields of the created entity but not the private
`#clickCount`, `#subscriberCount`, `#deleted`, which keep their previous
values. A `ValidationError` thrown by the inner `create` propagates
before anything is assigned. -/
def edit (r : Recommendation) (properties : EditRecommendation) (now : Nat) :
    Except ValidationError Recommendation :=
  let newProperties := mergeEdit r.plain properties
  let newProperties := { newProperties with updatedAt := some now }
  match create (RecommendationPlain.toCreateData newProperties) now r.id with
  | .error e => .error e
  | .ok created => .ok { created with
      clickCount := r.clickCount
      subscriberCount := r.subscriberCount
      deleted := r.deleted }

/-- The post-state of `this` after running `edit`: in the source,
`validate` throws before the new entity is constructed, cleaned or
assigned, so on error `this` is left exactly as it was. -/
def editRun (r : Recommendation) (properties : EditRecommendation) (now : Nat) :
    Recommendation :=
  match edit r properties now with
  | .error _ => r
  | .ok r2 => r2

end Recommendation

/-! ## RoutingProvider.tsx -/

/-- The options record `updateRoute` works on: an `InternalLink` has
`isExternal` false (or absent), an `ExternalLink` has it true and may
carry `models`. -/
structure LinkOptions where
  isExternal : Bool
  route : String
  models : Option (List String)
deriving DecidableEq, Repr

/-- The argument of `updateRoute`: a plain string or a link record. -/
inductive RouteLink where
  | str (route : String)
  | link (options : LinkOptions)
deriving DecidableEq, Repr

/-- The observable effect of one `updateRoute` call: either
`externalNavigate(options)` was invoked (and the hash left alone), or
`window.location.hash` was assigned the given value. -/
inductive RouteEffect where
  | externalNav (options : LinkOptions)
  | setHash (hash : String)
deriving DecidableEq, Repr

/-- `updateRoute` (lines 134–149): a string argument becomes
`{route: to}`; an external link is delegated to `externalNavigate`;
otherwise a truthy route sets the hash to `/settings-x/<route>` and an
empty one to `/settings-x`. -/
def updateRoute (dest : RouteLink) : RouteEffect :=
  let options := match dest with
    | .str s => { isExternal := false, route := s, models := none }
    | .link l => l
  if options.isExternal then .externalNav options
  else if jsTruthy options.route then .setHash ("/settings-x/" ++ options.route)
  else .setHash "/settings-x"

/-! ## labs.hbs -/

/-- One `gh-main-section` of the labs template: its header and the
`GhFeatureFlag` switches it renders. -/
structure LabsSection where
  header : String
  flagSwitches : List String
deriving DecidableEq, Repr

/-- The feature-flag switches of the `Alpha Features` section
(lines 187–384 of the template), in order. -/
def alphaFlags : List String :=
  ["urlCache", "lexicalMultiplayer", "webmentions", "websockets",
   "stripeAutomaticTax", "emailCustomization", "collections",
   "collectionsCard", "adminXSettings", "mailEvents", "lexicalIndicators",
   "importMemberTier", "tipsAndDonations", "recommendations"]

/-- The sections the labs template renders: `Migration options` (no flag
switches) and `Beta features` (the `i18n` switch) unconditionally, and
`Alpha Features` only inside `{{#if (enable-developer-experiments)}}`. -/
def labsTemplate (enableDeveloperExperiments : Bool) : List LabsSection :=
  [{ header := "Migration options", flagSwitches := [] },
   { header := "Beta features", flagSwitches := ["i18n"] }] ++
  (if enableDeveloperExperiments then
    [{ header := "Alpha Features", flagSwitches := alphaFlags }]
  else [])

/-! ## Helper lemmas for the Recommendation entity -/

/-- The invalidity condition of `Recommendation.validate`, as the spec
phrases it: empty title, title over 2000 characters, or a non-null,
non-empty reason or excerpt over 2000 characters. -/
def invalidAdd (title : String) (reason excerpt : Option String) : Prop :=
  title.length = 0 ∨ title.length > 2000 ∨
    (∃ s, reason = some s ∧ s ≠ "" ∧ s.length > 2000) ∨
    (∃ s, excerpt = some s ∧ s ≠ "" ∧ s.length > 2000)

instance (title : String) (reason excerpt : Option String) :
    Decidable (invalidAdd title reason excerpt) := by
  unfold invalidAdd
  cases reason <;> cases excerpt <;> simp <;> infer_instance

lemma elim_truthy_iff (o : Option String) :
    (o.elim false fun s => jsTruthy s && s.length > 2000) = true ↔
      ∃ s, o = some s ∧ s ≠ "" ∧ s.length > 2000 := by
  cases o <;> simp [jsTruthy, and_assoc]

lemma length_eq_zero_iff (s : String) : s.length = 0 ↔ s = "" := by
  obtain ⟨l⟩ := s
  simp [String.length, String.ext_iff]

lemma validate_error_iff (p : AddRecommendation) :
    (∃ e, Recommendation.validate p = Except.error e) ↔
      invalidAdd p.title p.reason p.excerpt := by
  unfold Recommendation.validate invalidAdd
  split_ifs with h1 h2 h3 h4
  · exact ⟨fun _ => Or.inl h1, fun _ => ⟨_, rfl⟩⟩
  · exact ⟨fun _ => Or.inr (Or.inl h2), fun _ => ⟨_, rfl⟩⟩
  · exact ⟨fun _ => Or.inr (Or.inr (Or.inl ((elim_truthy_iff _).mp h3))),
      fun _ => ⟨_, rfl⟩⟩
  · exact ⟨fun _ => Or.inr (Or.inr (Or.inr ((elim_truthy_iff _).mp h4))),
      fun _ => ⟨_, rfl⟩⟩
  · simp only [reduceCtorEq, exists_false, false_iff]
    push_neg
    refine ⟨h1, by omega, ?_, ?_⟩
    · intro s hs
      have := (elim_truthy_iff p.reason).not.mp (by simp [h3])
      push_neg at this
      intro hne
      have := this s hs hne
      omega
    · intro s hs
      have := (elim_truthy_iff p.excerpt).not.mp (by simp [h4])
      push_neg at this
      intro hne
      have := this s hs hne
      omega

/-- The plain record `create` assembles from its input (the `d` of
lines 139–152), with the defaults for `id` and `createdAt` filled in. -/
def assembleCreate (data : RecommendationCreateData) (now : Nat)
    (freshId : String) : RecommendationPlain :=
  { id := data.id.getD freshId
    title := data.title
    reason := data.reason
    excerpt := data.excerpt
    featuredImage := data.featuredImage
    favicon := data.favicon
    url := data.url
    oneClickSubscribe := data.oneClickSubscribe
    createdAt := data.createdAt.getD now
    updatedAt := data.updatedAt
    clickCount := data.clickCount
    subscriberCount := data.subscriberCount }

lemma create_eq (data : RecommendationCreateData) (now : Nat) (freshId : String) :
    Recommendation.create data now freshId =
      match Recommendation.validate (assembleCreate data now freshId).toAdd with
      | .error e => .error e
      | .ok _ => .ok (Recommendation.clean
          (Recommendation.ofPlain (assembleCreate data now freshId))) := rfl

lemma create_ok_iff (data : RecommendationCreateData) (now : Nat)
    (freshId : String) (r : Recommendation) :
    Recommendation.create data now freshId = .ok r ↔
      Recommendation.validate (assembleCreate data now freshId).toAdd = .ok () ∧
        r = Recommendation.clean
          (Recommendation.ofPlain (assembleCreate data now freshId)) := by
  rw [create_eq]
  cases h : Recommendation.validate (assembleCreate data now freshId).toAdd with
  | error e => simp [h]
  | ok u => cases u; simp [h, eq_comm]

lemma create_error_iff (data : RecommendationCreateData) (now : Nat)
    (freshId : String) :
    (∃ e, Recommendation.create data now freshId = Except.error e) ↔
      invalidAdd data.title data.reason data.excerpt := by
  rw [create_eq]
  have hv := validate_error_iff (assembleCreate data now freshId).toAdd
  simp only [assembleCreate, RecommendationPlain.toAdd] at hv
  cases h : Recommendation.validate (assembleCreate data now freshId).toAdd with
  | error e =>
    simp only [assembleCreate, RecommendationPlain.toAdd] at h
    simp only [h]
    simpa [h] using hv
  | ok u =>
    simp only [assembleCreate, RecommendationPlain.toAdd] at h
    simp only [h]
    simpa [h] using hv

lemma clean_eq (r : Recommendation) :
    Recommendation.clean r = { r with
      reason := r.reason.bind fun s => if s.length = 0 then none else some s
      url := Recommendation.cleanURL r.url
      createdAt := setMs0 r.createdAt
      updatedAt := r.updatedAt.map setMs0 } := by
  unfold Recommendation.clean
  cases h : r.reason with
  | none => simp [h]
  | some s =>
    by_cases hs : s.length = 0 <;> simp [h, hs]

/-- The normalization invariant `clean` establishes. -/
def Cleaned (r : Recommendation) : Prop :=
  r.url.search = "" ∧ r.url.hash = "" ∧ r.reason ≠ some "" ∧
    r.createdAt % 1000 = 0 ∧ ∀ t, r.updatedAt = some t → t % 1000 = 0

instance (r : Recommendation) : Decidable (Cleaned r) := by
  unfold Cleaned
  cases h : r.updatedAt <;> simp [h] <;> infer_instance

lemma setMs0_mod (t : Nat) : setMs0 t % 1000 = 0 := by
  unfold setMs0
  omega

lemma cleaned_clean (r : Recommendation) : Cleaned (Recommendation.clean r) := by
  rw [clean_eq]
  refine ⟨rfl, rfl, ?_, setMs0_mod _, ?_⟩
  · cases h : r.reason with
    | none => simp
    | some s =>
      by_cases hs : s.length = 0 <;>
        simp_all [length_eq_zero_iff]
  · cases h : r.updatedAt with
    | none => simp
    | some u =>
      intro t ht
      simp only [h, Option.map_some] at ht
      obtain rfl : setMs0 u = t := by injection ht
      exact setMs0_mod u

lemma create_ok_cleaned (data : RecommendationCreateData) (now : Nat)
    (freshId : String) (r : Recommendation)
    (h : Recommendation.create data now freshId = .ok r) : Cleaned r := by
  obtain ⟨-, hr⟩ := (create_ok_iff data now freshId r).mp h
  rw [hr]
  exact cleaned_clean _

lemma edit_eq (r : Recommendation) (props : EditRecommendation) (now : Nat) :
    Recommendation.edit r props now =
      match Recommendation.create
        (RecommendationPlain.toCreateData
          { Recommendation.mergeEdit r.plain props with updatedAt := some now })
        now r.id with
      | .error e => .error e
      | .ok created => .ok { created with
          clickCount := r.clickCount
          subscriberCount := r.subscriberCount
          deleted := r.deleted } := rfl

lemma edit_ok_iff (r : Recommendation) (props : EditRecommendation) (now : Nat)
    (r2 : Recommendation) :
    Recommendation.edit r props now = .ok r2 ↔
      ∃ created, Recommendation.create
          (RecommendationPlain.toCreateData
            { Recommendation.mergeEdit r.plain props with updatedAt := some now })
          now r.id = .ok created ∧
        r2 = { created with
          clickCount := r.clickCount
          subscriberCount := r.subscriberCount
          deleted := r.deleted } := by
  rw [edit_eq]
  cases h : Recommendation.create
      (RecommendationPlain.toCreateData
        { Recommendation.mergeEdit r.plain props with updatedAt := some now })
      now r.id with
  | error e => simp
  | ok created => simp [eq_comm]

/-! ## Claim theorems: the Recommendation entity -/

/-- C1: `Recommendation.validate` — and hence `Recommendation.create` —
throws a `ValidationError` exactly when the title is empty, the title is
longer than 2000 characters, or the reason (resp. excerpt) is non-null,
non-empty and longer than 2000 characters; on every other input nothing
is thrown. -/
theorem claim1_validate_create_error_iff :
    (∀ p : AddRecommendation,
      (∃ e, Recommendation.validate p = Except.error e) ↔
        invalidAdd p.title p.reason p.excerpt) ∧
    (∀ (data : RecommendationCreateData) (now : Nat) (freshId : String),
      (∃ e, Recommendation.create data now freshId = Except.error e) ↔
        invalidAdd data.title data.reason data.excerpt) :=
  ⟨validate_error_iff, create_error_iff⟩

/-- C8: the length checks reject only lengths strictly greater than 2000,
so a title, reason and excerpt of exactly 2000 characters pass
`Recommendation.validate` (despite the error messages saying
`less than 2000`). -/
theorem claim8_validate_accepts_exactly_2000 (p : AddRecommendation)
    (htitle : p.title.length = 2000)
    (hreason : ∀ s, p.reason = some s → s.length = 2000)
    (hexcerpt : ∀ s, p.excerpt = some s → s.length = 2000) :
    Recommendation.validate p = Except.ok () := by
  unfold Recommendation.validate
  rw [if_neg (by omega), if_neg (by omega), if_neg, if_neg]
  · cases h : p.excerpt with
    | none => simp
    | some s =>
      have := hexcerpt s h
      simp [h, this]
  · cases h : p.reason with
    | none => simp
    | some s =>
      have := hreason s h
      simp [h, this]

theorem claim1_witness :
    ∃ e, Recommendation.validate
      { title := "", reason := none, excerpt := none, featuredImage := none,
        favicon := none, url := ⟨"https://example.com/", "", ""⟩,
        oneClickSubscribe := false } = Except.error e :=
  (claim1_validate_create_error_iff.1 _).mpr (Or.inl rfl)

theorem claim8_witness :
    (String.mk (List.replicate 2000 'a')).length = 2000 ∧
    Recommendation.validate
      { title := String.mk (List.replicate 2000 'a')
        reason := some (String.mk (List.replicate 2000 'a'))
        excerpt := some (String.mk (List.replicate 2000 'a'))
        featuredImage := none
        favicon := none
        url := ⟨"https://example.com/", "", ""⟩
        oneClickSubscribe := false } = Except.ok () := by
  have hlen : (String.mk (List.replicate 2000 'a')).length = 2000 := by
    show (List.replicate 2000 'a').length = 2000
    rw [List.length_replicate]
  refine ⟨hlen, claim8_validate_accepts_exactly_2000 _ hlen ?_ ?_⟩
  · intro s hs
    obtain rfl : String.mk (List.replicate 2000 'a') = s := by injection hs
    exact hlen
  · intro s hs
    obtain rfl : String.mk (List.replicate 2000 'a') = s := by injection hs
    exact hlen

lemma cleanURL_eq_self (u : JsURL) (h1 : u.search = "") (h2 : u.hash = "") :
    Recommendation.cleanURL u = u := by
  cases u
  simp_all [Recommendation.cleanURL]

lemma setMs0_eq_self (t : Nat) (h : t % 1000 = 0) : setMs0 t = t := by
  unfold setMs0
  omega

/-- C7: every recommendation returned by a successful `Recommendation.create`
or `Recommendation.edit` is normalized: its url has empty search and hash
components, its reason is never the empty string, and the millisecond
components of `createdAt` and (when non-null) `updatedAt` are zero. -/
theorem claim7_create_edit_normalized :
    (∀ (data : RecommendationCreateData) (now : Nat) (freshId : String)
      (r : Recommendation),
      Recommendation.create data now freshId = .ok r → Cleaned r) ∧
    (∀ (r : Recommendation) (props : EditRecommendation) (now : Nat)
      (r2 : Recommendation),
      Recommendation.edit r props now = .ok r2 → Cleaned r2) := by
  refine ⟨create_ok_cleaned, ?_⟩
  intro r props now r2 h
  obtain ⟨created, hc, hr2⟩ := (edit_ok_iff _ _ _ _).mp h
  have hcl := create_ok_cleaned _ _ _ _ hc
  rw [hr2]
  exact hcl

/-- Concrete create input for the witnesses: a valid recommendation with
an unclean url, an empty reason and timestamps with milliseconds. -/
def dataW : RecommendationCreateData :=
  { id := some "rid"
    title := "Old"
    reason := some ""
    excerpt := some "ex"
    featuredImage := none
    favicon := none
    url := ⟨"https://example.com/", "ref=1", "top"⟩
    oneClickSubscribe := false
    createdAt := some 1499
    updatedAt := none
    clickCount := some 5
    subscriberCount := none }

/-- The recommendation `create dataW 2000 "f"` produces. -/
def recW : Recommendation :=
  { id := "rid"
    title := "Old"
    reason := none
    excerpt := some "ex"
    featuredImage := none
    favicon := none
    url := ⟨"https://example.com/", "", ""⟩
    oneClickSubscribe := false
    createdAt := 1000
    updatedAt := none
    clickCount := some 5
    subscriberCount := none
    deleted := false }

theorem claim7_witness :
    Recommendation.create dataW 2000 "f" = Except.ok recW ∧ Cleaned recW :=
  ⟨rfl, claim7_create_edit_normalized.1 dataW 2000 "f" recW rfl⟩

/-- C2: a successful `edit` changes only the specified properties: every
field other than `updatedAt` whose key is absent (or set to `undefined`)
in the argument keeps its value, and `id` is never changed. -/
theorem claim2_edit_frame (data : RecommendationCreateData) (now1 : Nat)
    (freshId : String) (r : Recommendation) (props : EditRecommendation)
    (now2 : Nat) (r2 : Recommendation)
    (hcreate : Recommendation.create data now1 freshId = .ok r)
    (hedit : Recommendation.edit r props now2 = .ok r2) :
    r2.id = r.id ∧
    (props.title = none → r2.title = r.title) ∧
    (props.reason = none → r2.reason = r.reason) ∧
    (props.excerpt = none → r2.excerpt = r.excerpt) ∧
    (props.featuredImage = none → r2.featuredImage = r.featuredImage) ∧
    (props.favicon = none → r2.favicon = r.favicon) ∧
    (props.url = none → r2.url = r.url) ∧
    (props.oneClickSubscribe = none → r2.oneClickSubscribe = r.oneClickSubscribe) ∧
    r2.createdAt = r.createdAt ∧
    (props.clickCount = none → r2.clickCount = r.clickCount) ∧
    (props.subscriberCount = none → r2.subscriberCount = r.subscriberCount) := by
  obtain ⟨hs, hh, hre, hcr1000, hup⟩ := create_ok_cleaned _ _ _ _ hcreate
  obtain ⟨created, hc, hr2⟩ := (edit_ok_iff _ _ _ _).mp hedit
  obtain ⟨hval, hcr⟩ := (create_ok_iff _ _ _ _).mp hc
  subst hr2 hcr
  refine ⟨?_, ?_, ?_, ?_, ?_, ?_, ?_, ?_, ?_, ?_, ?_⟩
  · simp [clean_eq, Recommendation.ofPlain, assembleCreate,
      RecommendationPlain.toCreateData, Recommendation.mergeEdit,
      Recommendation.plain]
  · intro h
    simp [clean_eq, Recommendation.ofPlain, assembleCreate,
      RecommendationPlain.toCreateData, Recommendation.mergeEdit,
      Recommendation.plain, h]
  · intro h
    simp only [clean_eq, Recommendation.ofPlain, assembleCreate,
      RecommendationPlain.toCreateData, Recommendation.mergeEdit,
      Recommendation.plain, h, Option.getD_none]
    cases hr : r.reason with
    | none => simp
    | some s =>
      have hne : s ≠ "" := by
        intro he
        exact hre (by rw [hr, he])
      simp [hr, (length_eq_zero_iff s).ne.mpr hne]
  · intro h
    simp [clean_eq, Recommendation.ofPlain, assembleCreate,
      RecommendationPlain.toCreateData, Recommendation.mergeEdit,
      Recommendation.plain, h]
  · intro h
    simp [clean_eq, Recommendation.ofPlain, assembleCreate,
      RecommendationPlain.toCreateData, Recommendation.mergeEdit,
      Recommendation.plain, h]
  · intro h
    simp [clean_eq, Recommendation.ofPlain, assembleCreate,
      RecommendationPlain.toCreateData, Recommendation.mergeEdit,
      Recommendation.plain, h]
  · intro h
    simp [clean_eq, Recommendation.ofPlain, assembleCreate,
      RecommendationPlain.toCreateData, Recommendation.mergeEdit,
      Recommendation.plain, h, cleanURL_eq_self r.url hs hh]
  · intro h
    simp [clean_eq, Recommendation.ofPlain, assembleCreate,
      RecommendationPlain.toCreateData, Recommendation.mergeEdit,
      Recommendation.plain, h]
  · simp only [clean_eq, Recommendation.ofPlain, assembleCreate,
      RecommendationPlain.toCreateData, Recommendation.mergeEdit,
      Recommendation.plain, Option.getD_some]
    exact setMs0_eq_self _ hcr1000
  · intro h
    simp
  · intro h
    simp

theorem claim2_witness :
    Recommendation.edit recW { title := some "New" } 2500 = Except.ok
      { recW with title := "New", updatedAt := some 2000 } ∧
    ({ recW with title := "New", updatedAt := some 2000 } : Recommendation).id
        = recW.id ∧
    ({ recW with title := "New", updatedAt := some 2000 } : Recommendation).reason
        = recW.reason ∧
    ({ recW with title := "New", updatedAt := some 2000 } : Recommendation).createdAt
        = recW.createdAt := by
  have h := claim2_edit_frame dataW 2000 "f" recW { title := some "New" } 2500
    { recW with title := "New", updatedAt := some 2000 } rfl rfl
  exact ⟨rfl, h.1, h.2.2.1 rfl, h.2.2.2.2.2.2.2.2.1⟩

/-- C3: `edit` re-validates the merged properties and is atomic on
failure: when the merge of the current values with the given properties
is invalid (empty title, or title/reason/excerpt over 2000 characters)
`edit` throws a `ValidationError`, and a throwing `edit` leaves every
field of the recommendation — `updatedAt` included — unchanged. -/
theorem claim3_edit_revalidates_atomic (data : RecommendationCreateData)
    (now1 : Nat) (freshId : String) (r : Recommendation)
    (props : EditRecommendation) (now2 : Nat)
    (hcreate : Recommendation.create data now1 freshId = .ok r) :
    ((∃ e, Recommendation.edit r props now2 = Except.error e) ↔
      invalidAdd (props.title.getD r.title)
        (props.reason.getD r.reason) (props.excerpt.getD r.excerpt)) ∧
    (∀ e, Recommendation.edit r props now2 = Except.error e →
      Recommendation.editRun r props now2 = r) := by
  constructor
  · have hci := create_error_iff
      (RecommendationPlain.toCreateData
        { Recommendation.mergeEdit r.plain props with updatedAt := some now2 })
      now2 r.id
    rw [edit_eq]
    cases hcc : Recommendation.create
        (RecommendationPlain.toCreateData
          { Recommendation.mergeEdit r.plain props with updatedAt := some now2 })
        now2 r.id with
    | error e =>
      exact ⟨fun _ => hci.mp ⟨e, hcc⟩, fun _ => ⟨e, rfl⟩⟩
    | ok created =>
      refine ⟨fun h => ?_, fun hinv => ?_⟩
      · obtain ⟨e1, he1⟩ := h
        exact Except.noConfusion he1
      · obtain ⟨e1, he1⟩ := hci.mpr hinv
        rw [hcc] at he1
        exact Except.noConfusion he1
  · intro e he
    unfold Recommendation.editRun
    rw [he]

theorem claim3_witness :
    Recommendation.edit recW { title := some "" } 2500 =
      Except.error ⟨"Title must not be empty"⟩ ∧
    Recommendation.editRun recW { title := some "" } 2500 = recW :=
  ⟨rfl, (claim3_edit_revalidates_atomic dataW 2000 "f" recW
    { title := some "" } 2500 rfl).2 ⟨"Title must not be empty"⟩ rfl⟩

/-! ## Claim theorems: routing and the labs template -/

/-- C5: `updateRoute` sends an external link (and only an external link)
to `externalNavigate`, leaving the hash untouched; a string argument or
an internal link with a non-empty route sets the hash to
`/settings-x/<route>`; an empty route sets it to `/settings-x`. -/
theorem claim5_updateRoute_cases (l : LinkOptions) :
    (l.isExternal = true → updateRoute (.link l) = .externalNav l) ∧
    (l.isExternal = false → l.route ≠ "" →
      updateRoute (.link l) = .setHash ("/settings-x/" ++ l.route)) ∧
    (l.isExternal = false → l.route = "" →
      updateRoute (.link l) = .setHash "/settings-x") ∧
    (l.route ≠ "" →
      updateRoute (.str l.route) = .setHash ("/settings-x/" ++ l.route)) ∧
    (l.route = "" → updateRoute (.str l.route) = .setHash "/settings-x") := by
  obtain ⟨ext, route, models⟩ := l
  refine ⟨?_, ?_, ?_, ?_, ?_⟩ <;>
    · intros
      simp_all [updateRoute, jsTruthy]

theorem claim5_witness :
    updateRoute (.link ⟨true, "https://ghost.org", none⟩) =
      .externalNav ⟨true, "https://ghost.org", none⟩ ∧
    updateRoute (.str "tiers/add") = .setHash "/settings-x/tiers/add" ∧
    updateRoute (.str "") = .setHash "/settings-x" :=
  ⟨(claim5_updateRoute_cases ⟨true, "https://ghost.org", none⟩).1 rfl,
   (claim5_updateRoute_cases ⟨false, "tiers/add", none⟩).2.2.2.1 (by decide),
   (claim5_updateRoute_cases ⟨false, "", none⟩).2.2.2.2 rfl⟩

/-- C6: the labs page renders the `Alpha Features` section — with exactly
the feature-flag switches of `alphaFlags` — if and only if
`enable-developer-experiments` is true, while the `Migration options` and
`Beta features` sections are rendered unconditionally. -/
theorem claim6_labs_sections (dev : Bool) :
    ((⟨"Alpha Features", alphaFlags⟩ : LabsSection) ∈ labsTemplate dev ↔
      dev = true) ∧
    (⟨"Migration options", []⟩ : LabsSection) ∈ labsTemplate dev ∧
    (⟨"Beta features", ["i18n"]⟩ : LabsSection) ∈ labsTemplate dev ∧
    (∀ s ∈ labsTemplate dev, s.header = "Alpha Features" →
      dev = true ∧ s.flagSwitches = alphaFlags) := by
  cases dev <;> decide

theorem claim6_witness :
    (⟨"Alpha Features", alphaFlags⟩ : LabsSection) ∈ labsTemplate true ∧
    (⟨"Migration options", []⟩ : LabsSection) ∈ labsTemplate false :=
  ⟨(claim6_labs_sections true).1.mpr rfl, (claim6_labs_sections false).2.1⟩

/-! ## Helper lemmas for matchRoute -/

end Ghost
